import Mathlib

/-
Verification of the subsidy-form-fill repository.

This file shallowly embeds the parts of the TypeScript source that the
specification's claims are about:

  * src/subsidy-form-react/src/utils/formFillerFunctions.ts
    (the second form-filler variant: fillFormData, fillCompanyAddress2,
    selectApplicationReason, submitFormData)
  * the CLI driver (unnamed part_000, first document: main)
  * src/subsidy-form-react/src/lib/validation.ts (employeeCount schema,
    contact phone refinement)
  * src/subsidy-form-react/src/types/form.types.ts (isPhoneNumber, isKatakana)
  * the multi-step form reducer (unnamed part_005: formReducer)
  * GoogleFormsService.checkDuplicateEmail (unnamed part_004)

Browser pages, Playwright locators and the network are modelled by explicit
environment records; each UI interaction becomes an event in a trace, and an
operation that can throw returns Except.
-/

/-! ## Basic JavaScript-flavoured helpers -/

/-- Truthiness of an optional string, as JavaScript sees it:
`undefined` (none) and the empty string are falsy. -/
def truthyStr : Option String → Bool
  | none => false
  | some s => decide (s ≠ "")

/-- Substring containment on character lists (used to model Playwright's
`hasText` filter, which matches elements containing the given text as a
substring). -/
def subList (needle : List Char) : List Char → Bool
  | [] => needle.isEmpty
  | c :: t => needle.isPrefixOf (c :: t) || subList needle t

/-- String-level substring containment. -/
def containsStr (hay needle : String) : Bool := subList needle.toList hay.toList

/-- String starts-with, over characters. -/
def strStartsWith (s p : String) : Bool := p.toList.isPrefixOf s.toList

/-- JavaScript regex word character: `[A-Za-z0-9_]`. -/
def wordChar (c : Char) : Bool := c.isAlphanum || c == '_'

/-! ## Flat form-data record

Mirrors `FormData` in src/subsidy-form-react/src/utils (types document):
required fields are strings, the secondary-address fields and the agent name
are optional strings (TypeScript `field?: string`, modelled as
`Option String`), and `workerCount` is a number (an integer in every use). -/

structure FormData where
  entityType : String
  companyName : String
  companyNameKana : String
  representativeLastName : String
  representativeFirstName : String
  representativeLastNameKana : String
  representativeFirstNameKana : String
  address1PostalCode : String
  address1Prefecture : String
  address1City : String
  address1Street : String
  address2PostalCode : Option String
  address2Prefecture : Option String
  address2City : Option String
  address2Street : Option String
  workerCount : Int
  applicationMethod : String
  contactLastName : String
  contactFirstName : String
  contactLastNameKana : String
  contactFirstNameKana : String
  contactPhone : String
  contactEmail : String
  agentName : Option String
  applicationReason : String
deriving DecidableEq, Repr

/-! ## UI interaction events -/

/-- One observable Playwright interaction performed by a Section Filler. -/
inductive UIEvent where
  | click (sel : String)
  | clickOption (name : String)
  | clickListItem (text : String)
  | fillEv (sel : String) (value : String)
  | typeEv (sel : String) (text : String)
  | pressKey (sel : String) (key : String)
  | waitMs (ms : Nat)
deriving DecidableEq, Repr

/-- The parts of the externally controlled page that decide which branches
the fillers take: whether the v-select menus / autocomplete menu appear
within their timeouts, and which items the reason menu offers. -/
structure Env where
  addr2MenuAppears : Bool
  addr2OptionAppears : Bool
  reasonMenuAppears : Bool
  reasonMenuItems : List String
deriving Repr

/-! ## fillCompanyAddress2 (formFillerFunctions.ts lines 238-267)

Each subfield is guarded by JavaScript truthiness of the corresponding
input.  The prefecture subfield is a composite v-select: container click,
settle pause, menu wait (can time out), then a role=option click. -/

/-- A conditional plain write: `if (v) locator(sel).fill(v)`. -/
def optWrite (sel : String) (v : Option String) : List UIEvent :=
  match v with
  | some s => if s = "" then [] else [UIEvent.fillEv sel s]
  | none => []

/-- The prefecture branch of `fillCompanyAddress2`.  Fails (throws) when the
menu does not become visible within its 5s timeout, or when no option with
the requested accessible name exists. -/
def addr2PrefectureRun (env : Env) (v : Option String) : Except String (List UIEvent) :=
  match v with
  | none => Except.ok []
  | some s =>
    if s = "" then Except.ok []
    else if env.addr2MenuAppears = false then Except.error "MenuTimeout"
    else if env.addr2OptionAppears = false then Except.error "OptionNotFound"
    else Except.ok [UIEvent.click "addr2-prefecture-container", UIEvent.waitMs 500,
                    UIEvent.clickOption s]

/-- `fillCompanyAddress2(page, data)`: the four subfield writes in source
order (postal code, prefecture, city, street), each conditional on the
truthiness of its input. -/
def fillCompanyAddress2Run (env : Env) (d : FormData) : Except String (List UIEvent) := do
  let w1 := optWrite "input-addr2-zipcode" d.address2PostalCode
  let w2 ← addr2PrefectureRun env d.address2Prefecture
  let w3 := optWrite "input-addr2-city" d.address2City
  let w4 := optWrite "textarea-addr2-street" d.address2Street
  pure (w1 ++ w2 ++ w3 ++ w4)

/-- The guard `fillFormData` places in front of the call to
`fillCompanyAddress2` (formFillerFunctions.ts line 353):
`if (data.address2PostalCode || data.address2City || data.address2Street)`.
Note that `address2Prefecture` does not appear in this guard. -/
def address2Guard (d : FormData) : Bool :=
  truthyStr d.address2PostalCode || truthyStr d.address2City || truthyStr d.address2Street

/-- The secondary-address section as `fillFormData` actually runs it:
`fillCompanyAddress2` is invoked only when `address2Guard` holds, otherwise
the section performs no operations at all. -/
def fillAddress2Section (env : Env) (d : FormData) : Except String (List UIEvent) :=
  if address2Guard d then fillCompanyAddress2Run env d else Except.ok []

/-! ## selectApplicationReason (formFillerFunctions.ts lines 310-333)

Click the autocomplete field, pause, clear it, type the first three
characters (`reason.substring(0, 3)`), pause; then try to wait for the
dropdown list and click the first `.v-list-item` whose text contains the
target (Playwright `filter(hasText)` is substring matching and `.first()`
picks the first match).  Any failure inside the try (menu never visible, or
no containing item so the click times out) falls into the catch, which
directly fills the field with the full reason and presses Enter. -/

/-- The events common to every path: click, 1s pause, clear, type the first
three characters, 0.5s pause. -/
def reasonPrelude (reason : String) : List UIEvent :=
  [UIEvent.click "#label23", UIEvent.waitMs 1000, UIEvent.fillEv "#label23" "",
   UIEvent.typeEv "#label23" (String.mk (reason.toList.take 3)), UIEvent.waitMs 500]

/-- The catch-branch fallback: set the field to the full reason and commit
with Enter. -/
def reasonFallback (reason : String) : List UIEvent :=
  [UIEvent.fillEv "#label23" reason, UIEvent.pressKey "#label23" "Enter"]

/-- `selectApplicationReason(page, reason)` as an event trace. -/
def selectApplicationReasonRun (env : Env) (reason : String) : List UIEvent :=
  reasonPrelude reason ++
    (if env.reasonMenuAppears then
      match env.reasonMenuItems.find? (fun item => containsStr item reason) with
      | some item => [UIEvent.clickListItem item]
      | none => reasonFallback reason
    else reasonFallback reason)

/-- The value held by the `#label23` field after a trace: `fill` replaces the
value, `type` appends to it, other events leave it unchanged. -/
def label23Value (tr : List UIEvent) : String :=
  tr.foldl (fun v e =>
    match e with
    | UIEvent.fillEv "#label23" s => s
    | UIEvent.typeEv "#label23" s => v ++ s
    | _ => v) ""

/-! ## submitFormData (formFillerFunctions.ts lines 382-399)

After the confirm and submit clicks, the code looks the receipt up with
`page.getByText(/＜ 受付番号: \w+ ＞/)` and returns that element's
`textContent` (`|| ""`).  A page is modelled by the text contents of its
candidate elements.  A locator that resolves to no element makes
`textContent` fail with a wait timeout; one that resolves to several fails
Playwright's strictness check. -/

/-- Drop a literal character sequence from the front, or fail. -/
def dropLit : List Char → List Char → Option (List Char)
  | [], cs => some cs
  | _, [] => none
  | p :: ps, c :: cs => if c = p then dropLit ps cs else none

/-- Does the receipt-marker regex `＜ 受付番号: \w+ ＞` match at the head of
this character list? -/
def markerAt (cs : List Char) : Bool :=
  match dropLit "＜ 受付番号: ".toList cs with
  | none => false
  | some r =>
    decide (r.takeWhile wordChar ≠ []) &&
      (dropLit " ＞".toList (r.dropWhile wordChar)).isSome

/-- Does the receipt-marker regex match anywhere in the list? -/
def hasMarker : List Char → Bool
  | [] => false
  | c :: cs => markerAt (c :: cs) || hasMarker cs

/-- An element's text contains the receipt marker. -/
def containsReceiptMarker (s : String) : Bool := hasMarker s.toList

/-- The post-submit page: the text contents of its elements. -/
structure PostSubmitPage where
  elements : List String
deriving Repr

/-- Failure modes of the receipt lookup. -/
inductive SubmitError where
  | timeoutWaiting
  | strictModeViolation
deriving DecidableEq, Repr

/-- `submitFormData(page)`: the value the function returns (the matched
element's full text content), or the error its awaited locator raises. -/
def submitFormData (page : PostSubmitPage) : Except SubmitError String :=
  match page.elements.filter containsReceiptMarker with
  | [] => Except.error SubmitError.timeoutWaiting
  | [e] => Except.ok e
  | _ => Except.error SubmitError.strictModeViolation

/-! ## fillFormData at section granularity (formFillerFunctions.ts 336-379)

The try block of `fillFormData` awaits ten Section Fillers in a fixed
textual order; the secondary-address call is guarded by `address2Guard` and
the agent call by `if (data.agentName)`.  Every awaited filler is a sequence
of Playwright operations, any of which may throw (element not found, menu
timeout, ...); a throw aborts the remaining fillers and is rethrown by the
catch.  The page is abstracted by a success function `ok` saying which
fillers complete. -/

/-- The ten logical sections, one per Section Filler. -/
inductive Section where
  | entityType
  | companyInfo
  | representative
  | address1
  | address2
  | workerCount
  | applicationMethod
  | contact
  | agent
  | applicationReason
deriving DecidableEq, Repr

/-- The fixed order of the ten filler calls in the body of `fillFormData`. -/
def sectionOrder : List Section :=
  [Section.entityType, Section.companyInfo, Section.representative, Section.address1,
   Section.address2, Section.workerCount, Section.applicationMethod, Section.contact,
   Section.agent, Section.applicationReason]

/-- Which sections `fillFormData` runs for a given record: all of them except
that the secondary address is guarded by `address2Guard` and the agent by the
truthiness of `agentName`. -/
def sectionEnabled (d : FormData) : Section → Bool
  | Section.address2 => address2Guard d
  | Section.agent => truthyStr d.agentName
  | _ => true

/-- Run a list of sections in order against a page on which each section
either completes (`ok s = true`) or throws: returns the sections actually
invoked, and the section whose failure aborted the run, if any. -/
def runSections (ok : Section → Bool) : List Section → List Section × Option Section
  | [] => ([], none)
  | s :: rest =>
    if ok s then
      let r := runSections ok rest
      (s :: r.1, r.2)
    else ([s], some s)

/-- The sections `fillFormData` would attempt for this record, in order. -/
def enabledSections (d : FormData) : List Section := sectionOrder.filter (sectionEnabled d)

/-- `fillFormData(page, data)` at section granularity: the invoked sections
in order, plus the failing section (whose error the catch rethrows). -/
def fillRun (ok : Section → Bool) (d : FormData) : List Section × Option Section :=
  runSections ok (enabledSections d)

/-- Modelled from the spec: §3's validity invariants on `ApplicantRecord`
(the filler source performs no validation of its own).  Kana fields contain
katakana, the primary address is fully populated, the worker count lies in
2..300, and the two enumerated fields hold one of their allowed values.
`isKatakana` below is taken from form.types.ts. -/
def isKatakanaChar (c : Char) : Bool :=
  (decide ('ァ' ≤ c) && decide (c ≤ 'ヶ')) || c = 'ー' || c.isWhitespace

/-- `isKatakana` (form.types.ts line 163): `^[ァ-ヶー\s]+$`. -/
def isKatakana (s : String) : Bool :=
  !s.isEmpty && s.toList.all isKatakanaChar

/-- Modelled from the spec: §3 invariants defining a valid `ApplicantRecord`
for the flat `FormData` shape consumed by the filler. -/
def validRecord (d : FormData) : Bool :=
  isKatakana d.companyNameKana &&
  isKatakana d.representativeLastNameKana &&
  isKatakana d.representativeFirstNameKana &&
  isKatakana d.contactLastNameKana &&
  isKatakana d.contactFirstNameKana &&
  decide (d.address1PostalCode ≠ "") &&
  decide (d.address1Prefecture ≠ "") &&
  decide (d.address1City ≠ "") &&
  decide (d.address1Street ≠ "") &&
  decide (2 ≤ d.workerCount) && decide (d.workerCount ≤ 300) &&
  (d.entityType = "法人" || d.entityType = "個人事業主") &&
  (d.applicationMethod = "紙申請" || d.applicationMethod = "電子申請")

/-- The concrete test record shipped with the repository (unnamed part_000,
second document, `testData`): secondary-address subfields and agent name are
present but empty. -/
def testRecord : FormData :=
  { entityType := "法人"
    companyName := "株式会社テスト"
    companyNameKana := "カブシキガイシャテスト"
    representativeLastName := "山田"
    representativeFirstName := "太郎"
    representativeLastNameKana := "ヤマダ"
    representativeFirstNameKana := "タロウ"
    address1PostalCode := "100-0001"
    address1Prefecture := "東京都"
    address1City := "千代田区"
    address1Street := "千代田1-1-1"
    address2PostalCode := some ""
    address2Prefecture := some ""
    address2City := some ""
    address2Street := some ""
    workerCount := 50
    applicationMethod := "紙申請"
    contactLastName := "佐藤"
    contactFirstName := "花子"
    contactLastNameKana := "サトウ"
    contactFirstNameKana := "ハナコ"
    contactPhone := "03-1234-5678"
    contactEmail := "test@example.com"
    agentName := some ""
    applicationReason := "東京都の案内（メール・チラシ等）" }

/-- `testRecord` with only the secondary prefecture set: the record on which
the secondary-address guard goes wrong. -/
def prefOnlyRecord : FormData :=
  { testRecord with address2Prefecture := some "東京都" }

/-! ## The CLI driver (unnamed part_000, first document: main)

`main` resolves the JSON path, exits with code 1 when the file is missing,
parses it (a parse throw escapes `main` and is caught by the top-level
`main().catch(console.error)`, which only logs — the process then exits with
code 0), prints a summary, launches the browser, and inside try/finally
navigates, fills, reads one confirmation line, submits only when the
trimmed, lowercased input equals "y", and always closes the browser in the
finally block. -/

/-- One observable step of the CLI driver. -/
inductive CliEvent where
  | printFileMissing
  | printSummary
  | launchBrowser
  | gotoForm
  | runFill
  | readConfirmation
  | runSubmit
  | printReceipt
  | printCancel
  | printErrorEvent
  | closeBrowser
deriving DecidableEq, Repr

/-- The world the driver runs against: filesystem, page, and operator. -/
structure CliWorld where
  fileExists : Bool
  parseOk : Bool
  pageLoads : Bool
  fillOk : Bool
  submitOk : Bool
  userInput : String
deriving Repr

/-- The driver's observable outcome: its event trace and exit status. -/
structure CliResult where
  events : List CliEvent
  exitCode : Nat
deriving DecidableEq, Repr

/-- `data.toString().trim().toLowerCase()` applied to the operator's line,
character by character: strip leading and trailing whitespace, lowercase. -/
def normalizeInput (s : String) : String :=
  String.mk (((s.toList.dropWhile Char.isWhitespace).reverse.dropWhile
    Char.isWhitespace).reverse.map Char.toLower)

/-- The body of the try block once the page is up: fill, confirm, and either
submit or cancel; a throw anywhere lands in the catch, which logs. -/
def cliTryEvents (w : CliWorld) : List CliEvent :=
  if w.pageLoads = false then [CliEvent.gotoForm, CliEvent.printErrorEvent]
  else if w.fillOk = false then [CliEvent.gotoForm, CliEvent.runFill, CliEvent.printErrorEvent]
  else
    [CliEvent.gotoForm, CliEvent.runFill, CliEvent.readConfirmation] ++
      (if normalizeInput w.userInput = "y" then
        if w.submitOk then [CliEvent.runSubmit, CliEvent.printReceipt]
        else [CliEvent.runSubmit, CliEvent.printErrorEvent]
      else [CliEvent.printCancel])

/-- `main()` as a whole.  Missing file: error message and `process.exit(1)`
before any browser work.  Parse failure: the rejection is logged by the
top-level catch and the process finishes with code 0, still before any
browser work.  Otherwise the browser is launched and the finally block
closes it on every path. -/
def mainRun (w : CliWorld) : CliResult :=
  if w.fileExists = false then
    { events := [CliEvent.printFileMissing], exitCode := 1 }
  else if w.parseOk = false then
    { events := [CliEvent.printErrorEvent], exitCode := 0 }
  else
    { events := [CliEvent.printSummary, CliEvent.launchBrowser] ++ cliTryEvents w ++
        [CliEvent.closeBrowser]
      exitCode := 0 }

/-! ## Validation (validation.ts) -/

/-- The `employeeCount` submission rule
(validation.ts lines 222-227 and 289-293):
`z.number().int().min(2).max(300)`.  JavaScript numbers carry exact values
for the integers at issue; the submitted number is modelled as a rational,
`.int()` as integrality, `.min`/`.max` as inclusive bounds. -/
def employeeCountAccepts (x : ℚ) : Bool :=
  decide (x.den = 1) && decide (2 ≤ x) && decide (x ≤ 300)

/-- The fixed-line pattern `^0\d{1,4}-\d{1,4}-\d{4}$`
(form.types.ts line 156, first conjunct). -/
def phonePattern (s : String) : Bool :=
  match s.toList with
  | '0' :: rest =>
    let d1 := rest.takeWhile Char.isDigit
    let r1 := rest.dropWhile Char.isDigit
    decide (1 ≤ d1.length) && decide (d1.length ≤ 4) &&
      (match r1 with
      | '-' :: r2 =>
        let d2 := r2.takeWhile Char.isDigit
        let r3 := r2.dropWhile Char.isDigit
        decide (1 ≤ d2.length) && decide (d2.length ≤ 4) &&
          (match r3 with
          | '-' :: r4 => decide (r4.length = 4) && r4.all Char.isDigit
          | _ => false)
      | _ => false)
  | _ => false

/-- The mobile-prefix test `^0[789]0` (form.types.ts line 156, negated
second conjunct). -/
def mobilePrefixTest (s : String) : Bool :=
  match s.toList with
  | '0' :: c :: '0' :: _ => c = '7' || c = '8' || c = '9'
  | _ => false

/-- `isPhoneNumber` (form.types.ts lines 155-157): the fixed-line pattern
must match and the mobile-prefix pattern must not. -/
def isPhoneNumber (s : String) : Bool := phonePattern s && !mobilePrefixTest s

/-- The contact-phone rule of `subsidyFormSubmitSchema`
(validation.ts lines 306-307): `z.string().min(1).refine(isPhoneNumber)`. -/
def contactPhoneSubmitAccepts (s : String) : Bool :=
  decide (1 ≤ s.length) && isPhoneNumber s

/-! ## The multi-step form reducer (unnamed part_005, formReducer)

The React hook's state is a discriminated union over six steps; actions are
a seven-way discriminated union.  `crypto.randomUUID()` is modelled by an
explicit `freshId` argument.  Object spread `{...old, ...new}` on
`Partial<SubsidyFormData>` is merge-with-right-bias over present keys. -/

/-- `EntityType` (form.types.ts): the two entity kinds. -/
inductive EntityType where
  | corporation
  | soleProprietor
deriving DecidableEq, Repr

/-- `ApplicationMethod` (form.types.ts): paper or electronic. -/
inductive AppMethod where
  | paper
  | electronic
deriving DecidableEq, Repr

/-- `company` block of `SubsidyFormData`. -/
structure Company where
  name : String
  nameKana : String
deriving DecidableEq, Repr

/-- `PersonName` (form.types.ts). -/
structure PersonName where
  lastName : String
  firstName : String
  lastNameKana : String
  firstNameKana : String
deriving DecidableEq, Repr

/-- A fully populated `Address` (form.types.ts). -/
structure Address where
  postalCode : String
  prefecture : String
  city : String
  street : String
deriving DecidableEq, Repr

/-- `Partial<Address>`, the type of `secondaryAddress`. -/
structure AddressPartial where
  postalCode : Option String
  prefecture : Option String
  city : Option String
  street : Option String
deriving DecidableEq, Repr

/-- The contact block: a `PersonName` plus phone and email. -/
structure ContactInfo where
  lastName : String
  firstName : String
  lastNameKana : String
  firstNameKana : String
  phone : String
  email : String
deriving DecidableEq, Repr

/-- `Partial<SubsidyFormData>`: every top-level field may be absent. -/
structure PartialData where
  entityType : Option EntityType
  company : Option Company
  representative : Option PersonName
  primaryAddress : Option Address
  secondaryAddress : Option AddressPartial
  employeeCount : Option ℚ
  applicationMethod : Option AppMethod
  contact : Option ContactInfo
  agent : Option String
  applicationReason : Option String
deriving DecidableEq, Repr

/-- The empty partial record (no keys present). -/
def emptyData : PartialData :=
  { entityType := none, company := none, representative := none, primaryAddress := none,
    secondaryAddress := none, employeeCount := none, applicationMethod := none,
    contact := none, agent := none, applicationReason := none }

/-- Object spread `{...old, ...payload}`: a key present in the payload wins. -/
def mergeData (old payload : PartialData) : PartialData :=
  { entityType := payload.entityType <|> old.entityType
    company := payload.company <|> old.company
    representative := payload.representative <|> old.representative
    primaryAddress := payload.primaryAddress <|> old.primaryAddress
    secondaryAddress := payload.secondaryAddress <|> old.secondaryAddress
    employeeCount := payload.employeeCount <|> old.employeeCount
    applicationMethod := payload.applicationMethod <|> old.applicationMethod
    contact := payload.contact <|> old.contact
    agent := payload.agent <|> old.agent
    applicationReason := payload.applicationReason <|> old.applicationReason }

/-- `FormStep` (form.types.ts lines 94-103). -/
inductive FormStep where
  | companyInfo
  | address
  | employee
  | contact
  | confirmation
  | completion
deriving DecidableEq, Repr

/-- `FormState` (form.types.ts lines 106-112): one constructor per step; the
completion state carries only a submission id.  The per-step `Pick` types
are widened to the full `Partial<SubsidyFormData>` (and the `confirmation`
state's cast from full data is represented by the same widening). -/
inductive FormState where
  | companyInfo (data : PartialData)
  | address (data : PartialData)
  | employee (data : PartialData)
  | contact (data : PartialData)
  | confirmation (data : PartialData)
  | completion (submissionId : String)
deriving DecidableEq, Repr

/-- The step tag of a state. -/
def FormState.step : FormState → FormStep
  | FormState.companyInfo _ => FormStep.companyInfo
  | FormState.address _ => FormStep.address
  | FormState.employee _ => FormStep.employee
  | FormState.contact _ => FormStep.contact
  | FormState.confirmation _ => FormStep.confirmation
  | FormState.completion _ => FormStep.completion

/-- `state.data`; on the completion state the source would read `undefined`,
modelled as the empty partial record (only reachable through `GO_TO_STEP`,
which no claim touches). -/
def FormState.data : FormState → PartialData
  | FormState.companyInfo d => d
  | FormState.address d => d
  | FormState.employee d => d
  | FormState.contact d => d
  | FormState.confirmation d => d
  | FormState.completion _ => emptyData

/-- `FormAction` (part_005 lines 10-17).  The `SUBMIT` payload, a full
`SubsidyFormData` in the source, is widened to `PartialData` like the
confirmation state. -/
inductive FormAction where
  | nextStep (payload : PartialData)
  | previousStep
  | goToStep (step : FormStep)
  | updateData (payload : PartialData)
  | submit (payload : PartialData)
  | complete (submissionId : String)
  | reset
deriving DecidableEq, Repr

/-- `STEP_TRANSITIONS[step].next` (part_005 lines 26-33). -/
def stepNext : FormStep → Option FormStep
  | FormStep.companyInfo => some FormStep.address
  | FormStep.address => some FormStep.employee
  | FormStep.employee => some FormStep.contact
  | FormStep.contact => some FormStep.confirmation
  | FormStep.confirmation => some FormStep.completion
  | FormStep.completion => none

/-- `STEP_TRANSITIONS[step].prev` (part_005 lines 26-33). -/
def stepPrev : FormStep → Option FormStep
  | FormStep.companyInfo => none
  | FormStep.address => some FormStep.companyInfo
  | FormStep.employee => some FormStep.address
  | FormStep.contact => some FormStep.employee
  | FormStep.confirmation => some FormStep.contact
  | FormStep.completion => none

/-- The initial state (part_005 lines 20-23): companyInfo with empty data. -/
def initialState : FormState := FormState.companyInfo emptyData

/-- Rebuild a state with a given step tag and data, mirroring the inner
switches of the reducer; the default branches return the current state. -/
def mkStateAt (s : FormState) (step : FormStep) (d : PartialData) : FormState :=
  match step with
  | FormStep.companyInfo => FormState.companyInfo d
  | FormStep.address => FormState.address d
  | FormStep.employee => FormState.employee d
  | FormStep.contact => FormState.contact d
  | FormStep.confirmation => FormState.confirmation d
  | FormStep.completion => s

/-- `formReducer` (part_005 lines 36-133), with `crypto.randomUUID()`
supplied as `freshId`. -/
def formReducer (state : FormState) (action : FormAction) (freshId : String) : FormState :=
  match action with
  | FormAction.nextStep payload =>
    match stepNext state.step with
    | none => state
    | some ns =>
      let updatedData := mergeData state.data payload
      match ns with
      | FormStep.address => FormState.address updatedData
      | FormStep.employee => FormState.employee updatedData
      | FormStep.contact => FormState.contact updatedData
      | FormStep.confirmation => FormState.confirmation updatedData
      | FormStep.completion => FormState.completion freshId
      | _ => state
  | FormAction.previousStep =>
    match stepPrev state.step with
    | none => state
    | some ps => mkStateAt state ps state.data
  | FormAction.goToStep step =>
    if step = FormStep.completion then FormState.completion freshId
    else mkStateAt state step state.data
  | FormAction.updateData payload =>
    match state with
    | FormState.completion _ => state
    | _ => mkStateAt state state.step (mergeData state.data payload)
  | FormAction.submit payload => FormState.confirmation payload
  | FormAction.complete sid => FormState.completion sid
  | FormAction.reset => initialState

/-! ## checkDuplicateEmail (unnamed part_004, lines 117-132) -/

/-- A JavaScript value, as far as the duplicate check observes one. -/
inductive JsValue where
  | undef
  | nullV
  | bool (b : Bool)
  | str (s : String)
  | num (n : ℚ)
deriving DecidableEq, Repr

/-- JavaScript truthiness of such a value. -/
def truthy : JsValue → Bool
  | JsValue.undef => false
  | JsValue.nullV => false
  | JsValue.bool b => b
  | JsValue.str s => decide (s ≠ "")
  | JsValue.num n => decide (n ≠ 0)

/-- A completed HTTP response: its `ok` flag, whether `response.json()`
parses, and the `exists` property of the parsed body (`undef` if absent). -/
structure FetchResult where
  ok : Bool
  jsonParses : Bool
  existsField : JsValue
deriving DecidableEq, Repr

/-- What the backend fetch does: reject outright, or complete. -/
inductive FetchOutcome where
  | networkError
  | success (r : FetchResult)
deriving DecidableEq, Repr

/-- The try block of `checkDuplicateEmail`: throw on fetch rejection, throw
on a non-OK status, throw on a parse failure, else return
`result.exists || false`. -/
def checkDuplicateEmailBody (o : FetchOutcome) : Except String JsValue :=
  match o with
  | FetchOutcome.networkError => Except.error "fetch failed"
  | FetchOutcome.success r =>
    if r.ok = false then Except.error "HTTP error"
    else if r.jsonParses = false then Except.error "json parse error"
    else Except.ok (if truthy r.existsField then r.existsField else JsValue.bool false)

/-- `checkDuplicateEmail(email)`: the catch converts every throw into the
return value `false`, so the function is total (never throws to its
caller).  The email only feeds the request URL. -/
def checkDuplicateEmail (email : String) (o : FetchOutcome) : JsValue :=
  match checkDuplicateEmailBody o with
  | Except.ok v => v
  | Except.error _ => JsValue.bool false

/-! ## Remaining helper definitions for the statements -/

/-- The events the prefecture branch of `fillCompanyAddress2` emits when its
menu and option are available. -/
def addr2PrefEvents (v : Option String) : List UIEvent :=
  match v with
  | none => []
  | some s =>
    if s = "" then []
    else [UIEvent.click "addr2-prefecture-container", UIEvent.waitMs 500, UIEvent.clickOption s]

/-- Does a trace write the secondary postal code field? -/
def writesZip (tr : List UIEvent) : Bool :=
  tr.any (fun e => match e with
    | UIEvent.fillEv "input-addr2-zipcode" _ => true
    | _ => false)

/-- Does a trace select a secondary prefecture option? -/
def writesPref (tr : List UIEvent) : Bool :=
  tr.any (fun e => match e with
    | UIEvent.clickOption _ => true
    | _ => false)

/-- Does a trace write the secondary city field? -/
def writesCity (tr : List UIEvent) : Bool :=
  tr.any (fun e => match e with
    | UIEvent.fillEv "input-addr2-city" _ => true
    | _ => false)

/-- Does a trace write the secondary street field? -/
def writesStreet (tr : List UIEvent) : Bool :=
  tr.any (fun e => match e with
    | UIEvent.fillEv "textarea-addr2-street" _ => true
    | _ => false)

/-- An environment whose menus and options all resolve. -/
def envAllOk : Env :=
  { addr2MenuAppears := true, addr2OptionAppears := true,
    reasonMenuAppears := true, reasonMenuItems := [] }

/-- A reason-menu environment in which an item containing the target
precedes the item exactly equal to the target. -/
def reasonEnvX : Env :=
  { addr2MenuAppears := true, addr2OptionAppears := true,
    reasonMenuAppears := true,
    reasonMenuItems := ["その他のウェブサイト", "その他"] }

/-- A record whose secondary postal code and city are set but whose
secondary prefecture and street are blank. -/
def mixedRecord : FormData :=
  { testRecord with address2PostalCode := some "150-0001", address2City := some "渋谷区" }

/-! ## Theorems -/

/-- C7: the submission validation schema accepts the employeeCount value
exactly when it is an integer n with 2 ≤ n ≤ 300; every non-integer and
every out-of-range value is rejected. -/
theorem employeeCountAccepts_iff (x : ℚ) :
    employeeCountAccepts x = true ↔ ∃ n : ℤ, x = (n : ℚ) ∧ 2 ≤ n ∧ n ≤ 300 := by
  unfold employeeCountAccepts
  simp only [Bool.and_eq_true, decide_eq_true_eq]
  constructor
  · rintro ⟨⟨hden, h2⟩, h3⟩
    refine ⟨x.num, ?_, ?_, ?_⟩
    · exact ((Rat.den_eq_one_iff x).mp hden).symm
    · have hx : (x.num : ℚ) = x := (Rat.den_eq_one_iff x).mp hden
      exact_mod_cast hx ▸ h2
    · have hx : (x.num : ℚ) = x := (Rat.den_eq_one_iff x).mp hden
      exact_mod_cast hx ▸ h3
  · rintro ⟨n, rfl, h2, h3⟩
    refine ⟨⟨Rat.den_intCast n, ?_⟩, ?_⟩ <;> exact_mod_cast ‹_›

/-- C8: the multi-step form reducer is total, NEXT_STEP advances along the
fixed chain companyInfo → address → employee → contact → confirmation →
completion, the completion state absorbs NEXT_STEP, PREVIOUS_STEP and
UPDATE_DATA, and RESET always returns the initial state. -/
theorem formReducer_machine (s : FormState) (d p : PartialData) (sid fresh : String) :
    (∀ a : FormAction, ∃ t, formReducer s a fresh = t) ∧
    FormState.step (formReducer (FormState.companyInfo d) (FormAction.nextStep p) fresh)
      = FormStep.address ∧
    FormState.step (formReducer (FormState.address d) (FormAction.nextStep p) fresh)
      = FormStep.employee ∧
    FormState.step (formReducer (FormState.employee d) (FormAction.nextStep p) fresh)
      = FormStep.contact ∧
    FormState.step (formReducer (FormState.contact d) (FormAction.nextStep p) fresh)
      = FormStep.confirmation ∧
    FormState.step (formReducer (FormState.confirmation d) (FormAction.nextStep p) fresh)
      = FormStep.completion ∧
    formReducer (FormState.completion sid) (FormAction.nextStep p) fresh
      = FormState.completion sid ∧
    formReducer (FormState.completion sid) FormAction.previousStep fresh
      = FormState.completion sid ∧
    formReducer (FormState.completion sid) (FormAction.updateData p) fresh
      = FormState.completion sid ∧
    formReducer s FormAction.reset fresh = initialState :=
  ⟨fun a => ⟨formReducer s a fresh, rfl⟩, rfl, rfl, rfl, rfl, rfl, rfl, rfl, rfl, rfl⟩

/-- C10: the duplicate-email check never throws: every fetch rejection,
non-OK status or parse failure yields the value false, and the value true
is returned only when the parsed body's exists property is true. -/
theorem checkDuplicateEmail_total (email : String) (o : FetchOutcome) :
    (o = FetchOutcome.networkError → checkDuplicateEmail email o = JsValue.bool false) ∧
    (∀ r, o = FetchOutcome.success r → r.ok = false →
      checkDuplicateEmail email o = JsValue.bool false) ∧
    (∀ r, o = FetchOutcome.success r → r.jsonParses = false →
      checkDuplicateEmail email o = JsValue.bool false) ∧
    (checkDuplicateEmail email o = JsValue.bool true →
      ∃ r, o = FetchOutcome.success r ∧ r.existsField = JsValue.bool true) := by
  refine ⟨?_, ?_, ?_, ?_⟩
  · rintro rfl; rfl
  · rintro ⟨ok, jp, ef⟩ rfl h
    cases ok <;> simp_all [checkDuplicateEmail, checkDuplicateEmailBody]
  · rintro ⟨ok, jp, ef⟩ rfl h
    cases ok <;> cases jp <;> simp_all [checkDuplicateEmail, checkDuplicateEmailBody]
  · intro h
    rcases o with _ | ⟨ok, jp, ef⟩
    · simp [checkDuplicateEmail, checkDuplicateEmailBody] at h
    · cases ok
      · simp [checkDuplicateEmail, checkDuplicateEmailBody] at h
      · cases jp
        · simp [checkDuplicateEmail, checkDuplicateEmailBody] at h
        · refine ⟨_, rfl, ?_⟩
          by_cases ht : truthy ef = true
          · simpa [checkDuplicateEmail, checkDuplicateEmailBody, ht] using h
          · simp [checkDuplicateEmail, checkDuplicateEmailBody, ht] at h

/-- Witness for checkDuplicateEmail_total at concrete outcomes. -/
theorem checkDuplicateEmail_total_witness :
    checkDuplicateEmail "a@b.c" FetchOutcome.networkError = JsValue.bool false ∧
    ∃ r, FetchOutcome.success { ok := true, jsonParses := true, existsField := JsValue.bool true }
      = FetchOutcome.success r ∧ r.existsField = JsValue.bool true :=
  ⟨(checkDuplicateEmail_total "a@b.c" FetchOutcome.networkError).1 rfl,
   (checkDuplicateEmail_total "a@b.c"
      (FetchOutcome.success { ok := true, jsonParses := true, existsField := JsValue.bool true
        })).2.2.2 (by decide)⟩

/-- C1 counterexample: on a post-submit page whose element reads exactly
＜ 受付番号: ABC123 ＞, submitFormData does not return the bare token
ABC123 — it returns the element's full text, marker included. -/
theorem submitFormData_counterexample :
    submitFormData { elements := ["＜ 受付番号: ABC123 ＞"] } ≠ Except.ok "ABC123" ∧
    submitFormData { elements := ["＜ 受付番号: ABC123 ＞"] }
      = Except.ok "＜ 受付番号: ABC123 ＞" := by
  refine ⟨fun h => absurd (Except.ok.inj h) (by decide), rfl⟩

/-- C1 (amended): when exactly one element's text contains the receipt
marker, submitFormData returns that element's full text content (which
itself contains the marker, so it is never the bare token); when no element
contains the marker, the call fails with the locator wait timeout,
propagated to the caller rather than swallowed. -/
theorem submitFormData_result (page : PostSubmitPage) :
    (∀ e, page.elements.filter containsReceiptMarker = [e] →
      submitFormData page = Except.ok e) ∧
    ((∀ e ∈ page.elements, containsReceiptMarker e = false) →
      submitFormData page = Except.error SubmitError.timeoutWaiting) ∧
    (∀ s, submitFormData page = Except.ok s → containsReceiptMarker s = true) := by
  refine ⟨?_, ?_, ?_⟩
  · intro e h
    unfold submitFormData
    rw [h]
  · intro h
    have hnil : page.elements.filter containsReceiptMarker = [] :=
      List.filter_eq_nil_iff.mpr (fun a ha => by rw [h a ha]; simp)
    unfold submitFormData
    rw [hnil]
  · intro s h
    unfold submitFormData at h
    rcases hf : page.elements.filter containsReceiptMarker with _ | ⟨e, _ | ⟨e2, rest⟩⟩ <;>
      rw [hf] at h
    · simp at h
    · have he : e ∈ page.elements.filter containsReceiptMarker := by
        rw [hf]; exact List.mem_singleton.mpr rfl
      have hmark := List.of_mem_filter he
      have : e = s := by simpa using h
      rwa [this] at hmark
    · simp at h

/-- Witness for submitFormData_result: a unique marker element and a
markerless page. -/
theorem submitFormData_result_witness :
    submitFormData { elements := ["intro", "result: ＜ 受付番号: XYZ9 ＞ end"] }
      = Except.ok "result: ＜ 受付番号: XYZ9 ＞ end" ∧
    submitFormData { elements := ["no receipt here"] }
      = Except.error SubmitError.timeoutWaiting :=
  ⟨(submitFormData_result _).1 _ (by decide),
   (submitFormData_result _).2.1 (by decide)⟩

/-- Helper: a string whose characters start 0,c,0 with c one of 7, 8, 9 is
caught by the mobile-prefix test. -/
theorem mobilePrefixTest_of_toList (s : String) (c : Char) (t : List Char)
    (h : s.toList = '0' :: c :: '0' :: t) (hc : c = '7' ∨ c = '8' ∨ c = '9') :
    mobilePrefixTest s = true := by
  unfold mobilePrefixTest
  rw [h]
  rcases hc with rfl | rfl | rfl <;> rfl

/-- C9: isPhoneNumber accepts only strings matching the fixed-line pattern
0\d(1,4)-\d(1,4)-\d(4), and rejects every string beginning with 070, 080 or
090, so the contact-phone submission rule never accepts a mobile number. -/
theorem isPhoneNumber_only_fixed_line (s : String) :
    (isPhoneNumber s = true → phonePattern s = true) ∧
    ((strStartsWith s "070" = true ∨ strStartsWith s "080" = true ∨
        strStartsWith s "090" = true) →
      isPhoneNumber s = false ∧ contactPhoneSubmitAccepts s = false) := by
  constructor
  · intro h
    exact (Bool.and_eq_true _ _ |>.mp h).1
  · intro h
    have hm : mobilePrefixTest s = true := by
      rcases h with h | h | h <;>
      · rw [strStartsWith, List.isPrefixOf_iff_prefix] at h
        obtain ⟨t, ht⟩ := h
        exact mobilePrefixTest_of_toList s _ t (by simpa using ht.symm) (by simp)
    constructor
    · unfold isPhoneNumber
      rw [hm]
      simp
    · unfold contactPhoneSubmitAccepts isPhoneNumber
      rw [hm]
      simp

/-- Witness for isPhoneNumber_only_fixed_line: an accepted fixed-line number
pattern-matches; a mobile number is rejected by the submission rule. -/
theorem isPhoneNumber_only_fixed_line_witness :
    phonePattern "03-1234-5678" = true ∧
    isPhoneNumber "090-1234-5678" = false ∧
    contactPhoneSubmitAccepts "090-1234-5678" = false :=
  ⟨(isPhoneNumber_only_fixed_line "03-1234-5678").1 (by decide),
   ((isPhoneNumber_only_fixed_line "090-1234-5678").2 (Or.inr (Or.inr (by decide)))).1,
   ((isPhoneNumber_only_fixed_line "090-1234-5678").2 (Or.inr (Or.inr (by decide)))).2⟩

/-- C6: whenever the confirmation line, trimmed and lowercased, differs from
y, the submit step is never invoked; and on every run that launched the
browser, the browser is closed. -/
theorem mainRun_confirmation_gate (w : CliWorld) :
    (normalizeInput w.userInput ≠ "y" → CliEvent.runSubmit ∉ (mainRun w).events) ∧
    (CliEvent.launchBrowser ∈ (mainRun w).events →
      CliEvent.closeBrowser ∈ (mainRun w).events) := by
  rcases w with ⟨fe, po, pl, fo, so, ui⟩
  constructor
  · intro h
    cases fe <;> cases po <;> cases pl <;> cases fo <;> cases so <;>
      simp [mainRun, cliTryEvents, h]
  · intro hmem
    cases fe <;> cases po <;> cases pl <;> cases fo <;> cases so <;>
      simp_all [mainRun, cliTryEvents]

/-- Witness for mainRun_confirmation_gate: a declining operator. -/
theorem mainRun_confirmation_gate_witness :
    CliEvent.runSubmit ∉ (mainRun ⟨true, true, true, true, true, "n"⟩).events ∧
    CliEvent.closeBrowser ∈ (mainRun ⟨true, true, true, true, true, "n"⟩).events :=
  ⟨(mainRun_confirmation_gate _).1 (by decide),
   (mainRun_confirmation_gate _).2 (by decide)⟩

/-- C4 counterexample: an existing file with malformed JSON makes the CLI
finish with exit status 0 (the rejection is only logged by the top-level
catch), contradicting the claimed non-zero exit status; no browser is
launched. -/
theorem mainRun_malformed_counterexample :
    (mainRun ⟨true, false, true, true, true, "y"⟩).exitCode = 0 ∧
    CliEvent.launchBrowser ∉ (mainRun ⟨true, false, true, true, true, "y"⟩).events := by
  constructor
  · rfl
  · decide

/-- C4 (amended): a missing input file terminates the CLI with exit status 1
and an error message before any browser launch; an existing file with
malformed JSON terminates it with an error message before any browser
launch, but with exit status 0. -/
theorem mainRun_input_failures (w : CliWorld) :
    (w.fileExists = false →
      (mainRun w).exitCode = 1 ∧ CliEvent.printFileMissing ∈ (mainRun w).events ∧
        CliEvent.launchBrowser ∉ (mainRun w).events) ∧
    (w.fileExists = true → w.parseOk = false →
      (mainRun w).exitCode = 0 ∧ CliEvent.printErrorEvent ∈ (mainRun w).events ∧
        CliEvent.launchBrowser ∉ (mainRun w).events) := by
  constructor
  · intro h
    simp [mainRun, h]
  · intro h1 h2
    simp [mainRun, h1, h2]

/-- Witness for mainRun_input_failures at the two failing worlds. -/
theorem mainRun_input_failures_witness :
    ((mainRun ⟨false, true, true, true, true, "y"⟩).exitCode = 1 ∧
      CliEvent.printFileMissing ∈ (mainRun ⟨false, true, true, true, true, "y"⟩).events ∧
      CliEvent.launchBrowser ∉ (mainRun ⟨false, true, true, true, true, "y"⟩).events) ∧
    ((mainRun ⟨true, false, true, true, true, "y"⟩).exitCode = 0 ∧
      CliEvent.printErrorEvent ∈ (mainRun ⟨true, false, true, true, true, "y"⟩).events ∧
      CliEvent.launchBrowser ∉ (mainRun ⟨true, false, true, true, true, "y"⟩).events) :=
  ⟨(mainRun_input_failures _).1 rfl, (mainRun_input_failures _).2 rfl rfl⟩

/-- Helper: running a list of sections invokes the successful prefix plus
the first failing section, and reports that section as the failure. -/
theorem runSections_eq (ok : Section → Bool) (l : List Section) :
    runSections ok l =
      (l.takeWhile ok ++ (l.dropWhile ok).take 1, (l.dropWhile ok).head?) := by
  induction l with
  | nil => rfl
  | cons s rest ih =>
    simp only [runSections, List.takeWhile_cons, List.dropWhile_cons]
    cases h : ok s
    · simp [h]
    · simp [h, ih]

/-- C3 counterexample: the repository's own test record is a valid
ApplicantRecord, yet on an all-successful page fillFormData invokes neither
the secondary-address filler nor the agent filler, so it does not invoke
each Section Filler exactly once. -/
theorem fillRun_counterexample :
    validRecord testRecord = true ∧
    (fillRun (fun _ => true) testRecord).1.count Section.address2 = 0 ∧
    (fillRun (fun _ => true) testRecord).1.count Section.agent = 0 := by
  refine ⟨by decide, by decide, by decide⟩

/-- C3 (amended): fillFormData attempts exactly the enabled sections (all
ten except that the secondary address requires its guard and the agent a
non-empty name) in the fixed declared order; the invoked sections are the
successful prefix plus the first failing section, so a filler runs only if
every earlier enabled filler succeeded; the invocation list always respects
the declared order with no repetition; and when every filler succeeds each
enabled section is invoked exactly once in order. -/
theorem fillRun_order (ok : Section → Bool) (d : FormData) :
    (fillRun ok d).1
      = (enabledSections d).takeWhile ok ++ ((enabledSections d).dropWhile ok).take 1 ∧
    (fillRun ok d).2 = ((enabledSections d).dropWhile ok).head? ∧
    List.Sublist (fillRun ok d).1 sectionOrder ∧
    ((∀ s, ok s = true) → fillRun ok d = (enabledSections d, none)) := by
  have hrun := runSections_eq ok (enabledSections d)
  refine ⟨by rw [fillRun, hrun], by rw [fillRun, hrun], ?_, ?_⟩
  · rw [fillRun, hrun]
    have h1 : List.Sublist (((enabledSections d).dropWhile ok).take 1)
        ((enabledSections d).dropWhile ok) := List.take_sublist _ _
    have h2 := List.Sublist.append_left h1 ((enabledSections d).takeWhile ok)
    have h3 : (enabledSections d).takeWhile ok ++ (enabledSections d).dropWhile ok
        = enabledSections d := List.takeWhile_append_dropWhile _ _
    have h4 : List.Sublist (enabledSections d) sectionOrder := List.filter_sublist _
    exact (h3 ▸ h2).trans h4
  · intro hall
    have ht : (enabledSections d).takeWhile ok = enabledSections d :=
      List.takeWhile_eq_self_iff.mpr (fun x _ => hall x)
    have hd : (enabledSections d).dropWhile ok = [] :=
      List.dropWhile_eq_nil_iff.mpr (fun x _ => hall x)
    rw [fillRun, hrun, ht, hd]
    simp

/-- Witness for fillRun_order: with every filler succeeding on the test
record, exactly the enabled sections run and no failure is reported. -/
theorem fillRun_order_witness :
    fillRun (fun _ => true) testRecord = (enabledSections testRecord, none) :=
  (fillRun_order (fun _ => true) testRecord).2.2.2 (fun _ => rfl)

/-- Helper: under an available menu and option, fillCompanyAddress2 succeeds
and emits exactly the conditional writes of the four subfields in order. -/
theorem fillCompanyAddress2Run_eq (env : Env) (d : FormData)
    (hm : env.addr2MenuAppears = true) (ho : env.addr2OptionAppears = true) :
    fillCompanyAddress2Run env d = Except.ok
      (optWrite "input-addr2-zipcode" d.address2PostalCode ++
        addr2PrefEvents d.address2Prefecture ++
        optWrite "input-addr2-city" d.address2City ++
        optWrite "textarea-addr2-street" d.address2Street) := by
  cases hp : d.address2Prefecture with
  | none =>
    simp [fillCompanyAddress2Run, addr2PrefectureRun, addr2PrefEvents, hp,
      Bind.bind, Except.bind, Pure.pure, Except.pure]
  | some s =>
    by_cases hs : s = "" <;>
      simp [fillCompanyAddress2Run, addr2PrefectureRun, addr2PrefEvents, hp, hs, hm, ho,
        Bind.bind, Except.bind, Pure.pure, Except.pure]

/-- Helper: any-scan of a conditional write whose events all satisfy f. -/
theorem any_optWrite_pos (sel : String) (v : Option String) (f : UIEvent → Bool)
    (hf : ∀ s, f (UIEvent.fillEv sel s) = true) :
    (optWrite sel v).any f = truthyStr v := by
  cases v with
  | none => rfl
  | some s => by_cases hs : s = "" <;> simp [optWrite, truthyStr, hs, hf]

/-- Helper: any-scan of a conditional write none of whose events satisfy f. -/
theorem any_optWrite_neg (sel : String) (v : Option String) (f : UIEvent → Bool)
    (hf : ∀ s, f (UIEvent.fillEv sel s) = false) :
    (optWrite sel v).any f = false := by
  cases v with
  | none => rfl
  | some s => by_cases hs : s = "" <;> simp [optWrite, hs, hf]

/-- Helper: any-scan of the prefecture events, parameterized by what f makes
of an option click. -/
theorem any_prefEvents (v : Option String) (f : UIEvent → Bool) (b : Bool)
    (hc : f (UIEvent.click "addr2-prefecture-container") = false)
    (hw : f (UIEvent.waitMs 500) = false)
    (ho : ∀ s, f (UIEvent.clickOption s) = b) :
    (addr2PrefEvents v).any f = (truthyStr v && b) := by
  cases v with
  | none => rfl
  | some s => by_cases hs : s = "" <;> simp [addr2PrefEvents, truthyStr, hs, hc, hw, ho]

/-- C2 counterexample: a record whose only non-empty secondary subfield is
the prefecture performs zero write operations — the prefecture is never
written, because the guard in fillFormData omits it. -/
theorem fillAddress2Section_counterexample :
    prefOnlyRecord.address2Prefecture = some "東京都" ∧
    fillAddress2Section envAllOk prefOnlyRecord = Except.ok [] :=
  ⟨rfl, rfl⟩

/-- C2 (amended): when the guard (postal code, city or street non-empty)
fails — in particular whenever all four subfields are empty, but also when
only the prefecture is non-empty — the secondary-address section performs
zero operations; when the guard holds, each of the four subfields is
written exactly when the corresponding input is non-empty. -/
theorem fillAddress2Section_writes (env : Env) (d : FormData) (tr : List UIEvent)
    (hm : env.addr2MenuAppears = true) (ho : env.addr2OptionAppears = true) :
    (address2Guard d = false → fillAddress2Section env d = Except.ok []) ∧
    (truthyStr d.address2PostalCode = false ∧ truthyStr d.address2Prefecture = false ∧
        truthyStr d.address2City = false ∧ truthyStr d.address2Street = false →
      fillAddress2Section env d = Except.ok []) ∧
    (fillAddress2Section env d = Except.ok tr → address2Guard d = true →
      writesZip tr = truthyStr d.address2PostalCode ∧
      writesPref tr = truthyStr d.address2Prefecture ∧
      writesCity tr = truthyStr d.address2City ∧
      writesStreet tr = truthyStr d.address2Street) := by
  have hguard0 : ∀ h : address2Guard d = false, fillAddress2Section env d = Except.ok [] := by
    intro h
    simp [fillAddress2Section, h]
  refine ⟨hguard0, ?_, ?_⟩
  · rintro ⟨h1, h2, h3, h4⟩
    exact hguard0 (by simp [address2Guard, h1, h3, h4])
  · intro htr hg
    rw [fillAddress2Section, if_pos hg, fillCompanyAddress2Run_eq env d hm ho] at htr
    have htr' := Except.ok.inj htr
    subst htr'
    refine ⟨?_, ?_, ?_, ?_⟩
    · simp only [writesZip, List.any_append]
      rw [any_optWrite_pos _ _ _ (fun s => rfl),
        any_prefEvents _ _ false rfl rfl (fun s => rfl),
        any_optWrite_neg _ _ _ (fun s => rfl),
        any_optWrite_neg _ _ _ (fun s => rfl)]
      simp
    · simp only [writesPref, List.any_append]
      rw [any_optWrite_neg _ _ _ (fun s => rfl),
        any_prefEvents _ _ true rfl rfl (fun s => rfl),
        any_optWrite_neg _ _ _ (fun s => rfl),
        any_optWrite_neg _ _ _ (fun s => rfl)]
      simp
    · simp only [writesCity, List.any_append]
      rw [any_optWrite_neg _ _ _ (fun s => rfl),
        any_prefEvents _ _ false rfl rfl (fun s => rfl),
        any_optWrite_pos _ _ _ (fun s => rfl),
        any_optWrite_neg _ _ _ (fun s => rfl)]
      simp
    · simp only [writesStreet, List.any_append]
      rw [any_optWrite_neg _ _ _ (fun s => rfl),
        any_prefEvents _ _ false rfl rfl (fun s => rfl),
        any_optWrite_neg _ _ _ (fun s => rfl),
        any_optWrite_pos _ _ _ (fun s => rfl)]
      simp

/-- Witness for fillAddress2Section_writes: the all-empty test record
triggers no writes; a record with postal code and city set gets exactly
those two subfields written. -/
theorem fillAddress2Section_writes_witness :
    fillAddress2Section envAllOk testRecord = Except.ok [] ∧
    (writesZip [UIEvent.fillEv "input-addr2-zipcode" "150-0001",
        UIEvent.fillEv "input-addr2-city" "渋谷区"]
      = truthyStr mixedRecord.address2PostalCode ∧
    writesPref [UIEvent.fillEv "input-addr2-zipcode" "150-0001",
        UIEvent.fillEv "input-addr2-city" "渋谷区"]
      = truthyStr mixedRecord.address2Prefecture ∧
    writesCity [UIEvent.fillEv "input-addr2-zipcode" "150-0001",
        UIEvent.fillEv "input-addr2-city" "渋谷区"]
      = truthyStr mixedRecord.address2City ∧
    writesStreet [UIEvent.fillEv "input-addr2-zipcode" "150-0001",
        UIEvent.fillEv "input-addr2-city" "渋谷区"]
      = truthyStr mixedRecord.address2Street) :=
  ⟨(fillAddress2Section_writes envAllOk testRecord [] rfl rfl).2.1 (by decide),
   (fillAddress2Section_writes envAllOk mixedRecord
      [UIEvent.fillEv "input-addr2-zipcode" "150-0001",
       UIEvent.fillEv "input-addr2-city" "渋谷区"] rfl rfl).2.2 rfl rfl⟩

/-- C5 counterexample: with the target その他 and a menu listing
その他のウェブサイト before その他, the filler clicks the first item merely
containing the target — not the item whose text exactly matches it. -/
theorem selectApplicationReason_counterexample :
    UIEvent.clickListItem "その他のウェブサイト" ∈ selectApplicationReasonRun reasonEnvX "その他" ∧
    UIEvent.clickListItem "その他" ∉ selectApplicationReasonRun reasonEnvX "その他" ∧
    ("その他のウェブサイト" : String) ≠ "その他" := by
  refine ⟨by decide, by decide, by decide⟩

/-- C5 (amended): the filler clicks the field, clears it, types the first
three characters of the target; if within the timeout the menu shows an
item whose text contains the full target, the first such item is clicked
(its text need not equal the target); otherwise the fallback sets the
field's value to the full target and commits with an Enter keystroke. -/
theorem selectApplicationReason_strategy (env : Env) (reason : String) :
    (selectApplicationReasonRun env reason).take 5 = reasonPrelude reason ∧
    UIEvent.fillEv "#label23" "" ∈ selectApplicationReasonRun env reason ∧
    UIEvent.typeEv "#label23" (String.mk (reason.toList.take 3))
      ∈ selectApplicationReasonRun env reason ∧
    (∀ item, env.reasonMenuAppears = true →
      env.reasonMenuItems.find? (fun i => containsStr i reason) = some item →
      selectApplicationReasonRun env reason
          = reasonPrelude reason ++ [UIEvent.clickListItem item] ∧
        containsStr item reason = true) ∧
    (env.reasonMenuAppears = false ∨
        env.reasonMenuItems.find? (fun i => containsStr i reason) = none →
      selectApplicationReasonRun env reason = reasonPrelude reason ++ reasonFallback reason ∧
        label23Value (selectApplicationReasonRun env reason) = reason ∧
        (selectApplicationReasonRun env reason).getLast?
          = some (UIEvent.pressKey "#label23" "Enter")) := by
  refine ⟨rfl, ?_, ?_, ?_, ?_⟩
  · simp [selectApplicationReasonRun, reasonPrelude]
  · simp [selectApplicationReasonRun, reasonPrelude]
  · intro item hmenu hfind
    constructor
    · simp [selectApplicationReasonRun, hmenu, hfind]
    · simpa using List.find?_some hfind
  · intro h
    have htr : selectApplicationReasonRun env reason
        = reasonPrelude reason ++ reasonFallback reason := by
      rcases h with h | h
      · simp [selectApplicationReasonRun, h]
      · cases hmenu : env.reasonMenuAppears <;>
          simp [selectApplicationReasonRun, h, hmenu]
    refine ⟨htr, ?_, ?_⟩
    · rw [htr]; rfl
    · rw [htr]; rfl

/-- Witness for selectApplicationReason_strategy: a menu click on the first
containing item, and the fallback path for a target absent from the menu. -/
theorem selectApplicationReason_strategy_witness :
    (selectApplicationReasonRun reasonEnvX "その他"
        = reasonPrelude "その他" ++ [UIEvent.clickListItem "その他のウェブサイト"] ∧
      containsStr "その他のウェブサイト" "その他" = true) ∧
    (selectApplicationReasonRun envAllOk "あいうえお"
        = reasonPrelude "あいうえお" ++ reasonFallback "あいうえお" ∧
      label23Value (selectApplicationReasonRun envAllOk "あいうえお") = "あいうえお" ∧
      (selectApplicationReasonRun envAllOk "あいうえお").getLast?
        = some (UIEvent.pressKey "#label23" "Enter")) :=
  ⟨(selectApplicationReason_strategy reasonEnvX "その他").2.2.2.1
      "その他のウェブサイト" rfl (by decide),
   (selectApplicationReason_strategy envAllOk "あいうえお").2.2.2.2 (Or.inr rfl)⟩
